import Mathlib

/-!
Verification of the MoonTVPlus listing orchestration and caching layer.

Part one embeds the listing API route (the `GET` handler of the Emby list
endpoint): query parsing defaults, the default-sort cache gate, item
normalization, total-page computation, and the uniform success/failure
response shapes.

Part two embeds the client page (`private-library/page.tsx`): the session
state held by the fetch orchestrator, the reset effects fired on source,
view and sort changes, the disabled-source guards, the AbortController
based supersession of in-flight requests, and the completion handler that
merges pages and updates the has-more flag.
-/

namespace MoonTVPlus

/-- Normalized media type: `item.Type === 'Movie' ? 'movie' : 'tv'`. -/
inductive MediaType where
  | movie
  | tv
deriving DecidableEq

/-- Raw item as returned by the Emby client (`client.getItems`).  The raw
field `Type` is a reserved word in Lean, so it is spelled `type` here;
`ProductionYear` and `CommunityRating` are optional in the backend payload. -/
structure RawEmbyItem where
  Id : String
  Name : String
  ProductionYear : Option Nat
  CommunityRating : Option Rat
  type : String
deriving DecidableEq

/-- Normalized item shape produced by the endpoint's `result.Items.map`. -/
structure Item where
  id : String
  title : String
  poster : String
  year : String
  rating : Rat
  mediaType : MediaType
deriving DecidableEq

/-- Normalization of one raw backend item, from the `map` body of the GET
handler: `year: item.ProductionYear?.toString() || ''` (a missing year gives
the empty string), `rating: item.CommunityRating || 0` (a missing rating
gives zero; the JS falsy case `0` also gives `0`), and
`mediaType: item.Type === 'Movie' ? 'movie' : 'tv'`.  `imageUrl` stands for
the external `client.getImageUrl(item.Id, 'Primary')`. -/
def normalizeItem (imageUrl : String → String) (item : RawEmbyItem) : Item :=
  { id := item.Id
    title := item.Name
    poster := imageUrl item.Id
    year := match item.ProductionYear with
      | none => ""
      | some y => toString y
    rating := match item.CommunityRating with
      | none => 0
      | some r => r
    mediaType := if item.type = "Movie" then MediaType.movie else MediaType.tv }

/-- Total pages as computed by the endpoint:
`Math.ceil(result.TotalRecordCount / pageSize)`, i.e. ceiling division on
naturals. -/
def totalPagesOf (total pageSize : Nat) : Nat :=
  (total + pageSize - 1) / pageSize

/-- Result of the external `client.getItems` call. -/
structure UpstreamResult where
  Items : List RawEmbyItem
  TotalRecordCount : Nat
deriving DecidableEq

/-- JSON body returned by the listing endpoint.  The failure body of the
source carries no `success` field; an absent field is falsy in JS, which the
model renders as `success := false`.  Likewise the success body carries no
`error` field, rendered as `error := none`. -/
structure EmbyResponse where
  success : Bool
  error : Option String
  list : List Item
  totalPages : Nat
  currentPage : Nat
  total : Nat
deriving DecidableEq

/-- Query parameters of the GET handler after parsing and defaulting:
`page` defaults to 1, `pageSize` to 20, `sortBy` to 'SortName', `sortOrder`
to 'Ascending'; `parentId` and `embyKey` stay optional. -/
structure ListQuery where
  page : Nat
  pageSize : Nat
  parentId : Option String
  embyKey : Option String
  sortBy : String
  sortOrder : String
deriving DecidableEq

/-- The endpoint's cache gate:
`sortBy === 'SortName' && sortOrder === 'Ascending'`. -/
def isDefaultSortB (q : ListQuery) : Bool :=
  decide (q.sortBy = "SortName" ∧ q.sortOrder = "Ascending")

/-- Success body built by the GET handler on a live fetch. -/
def successResponse (imageUrl : String → String) (q : ListQuery)
    (res : UpstreamResult) : EmbyResponse :=
  { success := true
    error := none
    list := res.Items.map (normalizeItem imageUrl)
    totalPages := totalPagesOf res.TotalRecordCount q.pageSize
    currentPage := q.page
    total := res.TotalRecordCount }

/-- Failure body built by the GET handler's catch block. -/
def errorResponse (page : Nat) (msg : String) : EmbyResponse :=
  { success := false
    error := some ("获取 Emby 列表失败: " ++ msg)
    list := []
    totalPages := 0
    currentPage := page
    total := 0 }

/-- Observable outcome of one GET invocation: the response body, whether
`getCachedEmbyList` was called, whether the upstream `client.getItems` was
called, and what (if anything) was passed to `setCachedEmbyList`. -/
structure GETResult where
  resp : EmbyResponse
  cacheConsulted : Bool
  upstreamCalled : Bool
  cacheWrite : Option EmbyResponse
deriving DecidableEq

/-- Did the upstream call succeed. -/
def isOkB {ε α : Type} : Except ε α → Bool
  | Except.ok _ => true
  | Except.error _ => false

/-- The GET handler of the Emby list endpoint.  `cached` is the value
`getCachedEmbyList(page, pageSize, parentId, embyKey)` would return (the
cache store itself lives outside this route); `up` is the outcome of the
awaited `client.getItems` call (an exception lands in the catch block).
Only a default-sort query reads the cache, short-circuits on a hit, and
writes the freshly built success body back; every other query goes straight
to the upstream and never touches the cache.  The handler is total: every
path returns a response body. -/
def GET (imageUrl : String → String) (q : ListQuery)
    (cached : Option EmbyResponse) (up : Except String UpstreamResult) :
    GETResult :=
  if isDefaultSortB q then
    match cached with
    | some r => { resp := r, cacheConsulted := true, upstreamCalled := false, cacheWrite := none }
    | none =>
      match up with
      | Except.ok res =>
        let resp := successResponse imageUrl q res
        { resp := resp, cacheConsulted := true, upstreamCalled := true, cacheWrite := some resp }
      | Except.error e =>
        { resp := errorResponse q.page e, cacheConsulted := true, upstreamCalled := true, cacheWrite := none }
  else
    match up with
    | Except.ok res =>
      { resp := successResponse imageUrl q res, cacheConsulted := false, upstreamCalled := true, cacheWrite := none }
    | Except.error e =>
      { resp := errorResponse q.page e, cacheConsulted := false, upstreamCalled := true, cacheWrite := none }

/-- C1: the cache is consulted exactly when the query uses the system
default sort (`sortBy = 'SortName'` and `sortOrder = 'Ascending'`); the
upstream is called exactly when the sort is non-default or the cache lookup
missed (so a non-default sort always performs a live fetch with no cache
read); and the cache is written exactly when the sort is default, the cache
missed, and the upstream succeeded — and then the written value is the
successful response itself. -/
theorem emby_list_cache_iff_default_sort (imageUrl : String → String)
    (q : ListQuery) (cached : Option EmbyResponse)
    (up : Except String UpstreamResult) :
    (GET imageUrl q cached up).cacheConsulted = isDefaultSortB q
    ∧ (GET imageUrl q cached up).upstreamCalled
        = (!(isDefaultSortB q) || cached.isNone)
    ∧ (GET imageUrl q cached up).cacheWrite
        = (if isDefaultSortB q && cached.isNone && isOkB up
            then some (GET imageUrl q cached up).resp else none) := by
  cases hq : isDefaultSortB q <;> cases cached <;> cases up <;>
    simp [GET, hq, isOkB]

/-- C9: normalizing a backend item with a missing community rating yields
rating zero, and a missing production year yields the empty string; the
normalization is a total map over the backend's item list (it never fails a
response), so the normalized list always has the same length as the raw
list. -/
theorem normalize_missing_fields (imageUrl : String → String)
    (item : RawEmbyItem) (items : List RawEmbyItem) :
    (normalizeItem imageUrl
        { item with CommunityRating := none }).rating = 0
    ∧ (normalizeItem imageUrl
        { item with ProductionYear := none }).year = ""
    ∧ (items.map (normalizeItem imageUrl)).length = items.length := by
  refine ⟨rfl, rfl, ?_⟩
  simp

/-- C10: the endpoint sets `mediaType` to `movie` exactly when the backend
`Type` field equals `'Movie'`, and any other backend type value — not only
series — normalizes to `tv`. -/
theorem mediaType_movie_iff_type_movie (imageUrl : String → String)
    (item : RawEmbyItem) :
    ((normalizeItem imageUrl item).mediaType = MediaType.movie
      ↔ item.type = "Movie")
    ∧ (item.type ≠ "Movie"
        → (normalizeItem imageUrl item).mediaType = MediaType.tv) := by
  constructor
  · unfold normalizeItem
    by_cases h : item.type = "Movie" <;> simp [h]
  · intro h
    unfold normalizeItem
    simp [h]

/-- Raw Emby item used to instantiate C10 at a concrete non-Movie type. -/
def boxSetItem : RawEmbyItem :=
  { Id := "42", Name := "Collection", ProductionYear := none,
    CommunityRating := none, type := "BoxSet" }

/-- C10 witness: a concrete backend item of type 'BoxSet' (neither a movie
nor a series) normalizes to `tv`. -/
theorem mediaType_movie_iff_type_movie_witness :
    (boxSetItem.type = "Movie" → False)
    ∧ (normalizeItem (fun s => s) boxSetItem).mediaType = MediaType.tv :=
  ⟨by decide, (mediaType_movie_iff_type_movie (fun s => s) boxSetItem).2 (by decide)⟩

/-- The three library source kinds selectable on the private-library page. -/
inductive SourceType where
  | openlist
  | emby
  | xiaoya
deriving DecidableEq

/-- A folder or file entry from the flat-file (xiaoya) browse payload. -/
structure FileEntry where
  name : String
  path : String
deriving DecidableEq

/-- Runtime configuration flags read from `window.RUNTIME_CONFIG`. -/
structure RuntimeConfig where
  OPENLIST_ENABLED : Bool
  EMBY_ENABLED : Bool
  XIAOYA_ENABLED : Bool
deriving DecidableEq

/-- Session listing state of the private-library page.  `activeToken`
models the generation of `abortControllerRef.current`: issuing a fetch
aborts the previous controller and installs a fresh one, which the model
renders as incrementing the token; a completion belongs to the session's
current request exactly when its token matches `activeToken` (an aborted
request's fetch rejects with `AbortError`, whose handler returns before any
state mutation, and its `finally` block is guarded by
`signal.aborted`). -/
structure SessionState where
  sourceType : SourceType
  embyKey : Option String
  videos : List Item
  xiaoyaFolders : List FileEntry
  xiaoyaFiles : List FileEntry
  loading : Bool
  loadingMore : Bool
  error : String
  page : Nat
  hasMore : Bool
  selectedView : String
  isFetching : Bool
  activeToken : Nat
deriving DecidableEq

/-- Reset effect with dependencies `[sourceType, embyKey]`: on any change
of the source type or the emby instance key, the page resets to 1, the
videos are cleared, has-more resets to true, the error and both loading
flags are cleared, and the selected view falls back to 'all'. -/
def resetOnSourceChange (st : SessionState) : SessionState :=
  { st with page := 1, videos := [], hasMore := true, error := "",
            selectedView := "all", loading := false, loadingMore := false,
            isFetching := false }

/-- Reset effect with dependency `[selectedView]`: same reset minus the
selected-view assignment. -/
def resetOnViewChange (st : SessionState) : SessionState :=
  { st with page := 1, videos := [], hasMore := true, error := "",
            loading := false, loadingMore := false, isFetching := false }

/-- Reset effect with dependencies `[sortBy, sortOrder, sourceType]`: the
body short-circuits with `if (sourceType !== 'emby') return`, so the reset
runs only while the media-server source is selected (which is also the only
mode in which the sort controls are rendered at all). -/
def resetOnSortChange (st : SessionState) : SessionState :=
  if st.sourceType = SourceType.emby then
    { st with page := 1, videos := [], hasMore := true, error := "",
              loading := false, loadingMore := false, isFetching := false }
  else st

/-- The full session reset promised for every axis change: videos cleared,
page back to 1, has-more true, error empty, both loading flags cleared. -/
def fullReset (st : SessionState) : Prop :=
  st.videos = [] ∧ st.page = 1 ∧ st.hasMore = true ∧ st.error = ""
    ∧ st.loading = false ∧ st.loadingMore = false

/-- JS truthiness of an optional string, as used by `if (!embyKey)`-style
guards: absent or empty is falsy. -/
def falsyStr : Option String → Bool
  | none => true
  | some s => decide (s = "")

/-- JS truthiness of an optional error string, as used by
`if (data.error)`. -/
def truthyErr : Option String → Bool
  | none => false
  | some s => decide (s ≠ "")

/-- The three early-return guards at the top of `fetchVideos`: openlist
without `OPENLIST_ENABLED`, emby without `EMBY_ENABLED` or without a
truthy `embyKey`, xiaoya without `XIAOYA_ENABLED`. -/
def sourceDisabledB (cfg : RuntimeConfig) (st : SessionState) : Bool :=
  match st.sourceType with
  | SourceType.openlist => !cfg.OPENLIST_ENABLED
  | SourceType.emby => !cfg.EMBY_ENABLED || falsyStr st.embyKey
  | SourceType.xiaoya => !cfg.XIAOYA_ENABLED

/-- Synchronous prefix of one `fetchVideos` invocation, up to the actual
network await.  In source order: the in-flight request (if any) is aborted
first (modelled by bumping `activeToken`, which makes every earlier token
stale); then the disabled-source guards run `setLoading(false); return`
without touching any other state and without issuing a network call; else a
fresh controller is installed, `isFetchingRef` is set, the loading flag for
the initial page (`page === 1`) or the loading-more flag is set, and the
error is cleared.  The returned boolean says whether a network call was
issued. -/
def fetchVideosStart (cfg : RuntimeConfig) (st : SessionState) :
    SessionState × Bool :=
  let stA := { st with activeToken := st.activeToken + 1 }
  if sourceDisabledB cfg stA then ({ stA with loading := false }, false)
  else
    ({ stA with isFetching := true,
                loading := if stA.page = 1 then true else stA.loading,
                loadingMore := if stA.page = 1 then stA.loadingMore else true,
                error := "" }, true)

/-- What a fetch can come back with: a JSON body from the paginated listing
endpoints (openlist/emby, uniform shape of §6), a xiaoya browse payload, or
a thrown failure (`!response.ok` or a network error other than an
abort). -/
inductive FetchOutcome where
  | embyData (resp : EmbyResponse)
  | xiaoyaData (err : Option String) (folders files : List FileEntry)
  | thrown

/-- The `finally` block of `fetchVideos`, which runs its state updates only
when the request was not aborted: clear the loading flag that this request
set, and drop `isFetchingRef`. -/
def applyFinally (isInitial : Bool) (st : SessionState) : SessionState :=
  { st with loading := if isInitial then false else st.loading,
            loadingMore := if isInitial then st.loadingMore else false,
            isFetching := false }

/-- Completion handler of `fetchVideos` for a request carrying token
`tok`.  A stale token means the request's controller was aborted: its fetch
rejected with `AbortError`, the catch block returned at once, and the
guarded `finally` block did nothing — the state is untouched.  For the
current request: a truthy `data.error` surfaces the message and clears the
videos only on the initial page; a xiaoya payload replaces the folder/file
lists, empties `videos` and sets has-more to false; otherwise the page list
replaces (initial) or appends to (subsequent) the videos, and has-more
becomes `currentPage < totalPages` where — because the endpoint body has no
`page` field — `data.page || page` is the requested page and
`data.totalPages || 1` applies the JS falsy fallback to a zero
total-pages. -/
def handleCompletion (st : SessionState) (tok : Nat) (out : FetchOutcome) :
    SessionState :=
  if tok = st.activeToken then
    let st1 :=
      match out with
      | FetchOutcome.thrown =>
        { st with error := "获取视频列表失败",
                  videos := if st.page = 1 then [] else st.videos }
      | FetchOutcome.embyData resp =>
        if truthyErr resp.error then
          { st with error := resp.error.getD "",
                    videos := if st.page = 1 then [] else st.videos }
        else
          { st with videos := if st.page = 1 then resp.list
                              else st.videos ++ resp.list,
                    hasMore := decide (st.page <
                      (if resp.totalPages = 0 then 1 else resp.totalPages)) }
      | FetchOutcome.xiaoyaData err folders files =>
        if truthyErr err then
          { st with error := err.getD "",
                    videos := if st.page = 1 then [] else st.videos }
        else
          { st with xiaoyaFolders := folders, xiaoyaFiles := files,
                    videos := [], hasMore := false }
    applyFinally (decide (st.page = 1)) st1
  else st

/-- The Intersection Observer's page advance: `setPage(prev => prev + 1)`. -/
def advancePage (st : SessionState) : SessionState :=
  { st with page := st.page + 1 }

/-- C2: issuing a new fetch always aborts the previously outstanding
request (the new state's token differs from the old one, so every earlier
token is stale), and a response or error arriving for a stale token leaves
the session state exactly as it was — in particular the accumulated videos,
the error, and the loading flags of the superseding request are untouched;
instantiated directly, the superseded request's late completion leaves the
superseding request's state unchanged. -/
theorem stale_request_discarded (st : SessionState) (cfg : RuntimeConfig)
    (tok : Nat) (out : FetchOutcome) :
    (fetchVideosStart cfg st).1.activeToken ≠ st.activeToken
    ∧ (tok ≠ st.activeToken → handleCompletion st tok out = st)
    ∧ handleCompletion (fetchVideosStart cfg st).1 st.activeToken out
        = (fetchVideosStart cfg st).1 := by
  have hbump : (fetchVideosStart cfg st).1.activeToken = st.activeToken + 1 := by
    by_cases h : sourceDisabledB cfg { st with activeToken := st.activeToken + 1 } = true <;>
      simp [fetchVideosStart, h]
  refine ⟨?_, ?_, ?_⟩
  · omega
  · intro h
    unfold handleCompletion
    rw [if_neg h]
  · unfold handleCompletion
    rw [if_neg (by omega)]

/-- Concrete session state used to instantiate C2. -/
def staleWitnessState : SessionState :=
  { sourceType := SourceType.emby, embyKey := some "e1", videos := [],
    xiaoyaFolders := [], xiaoyaFiles := [], loading := false,
    loadingMore := true, error := "", page := 2, hasMore := true,
    selectedView := "all", isFetching := true, activeToken := 7 }

/-- C2 witness: at a concrete state with current token 7, a thrown failure
arriving for the stale token 3 leaves the state unchanged. -/
theorem stale_request_discarded_witness :
    (3 ≠ staleWitnessState.activeToken)
    ∧ handleCompletion staleWitnessState 3 FetchOutcome.thrown
        = staleWitnessState :=
  ⟨by decide,
    (stale_request_discarded staleWitnessState
      ⟨true, true, true⟩ 3 FetchOutcome.thrown).2.1 (by decide)⟩

/-- C5: each axis change performs the full session reset — any change of
the source descriptor (source type or emby key) and any change of the
selected view reset unconditionally, and any change of the sort field or
direction resets whenever the media-server source is selected, which is the
only mode in which the sort controls are rendered and hence the only mode
in which a sort change can occur. -/
theorem axis_change_full_reset (st : SessionState) :
    fullReset (resetOnSourceChange st)
    ∧ fullReset (resetOnViewChange st)
    ∧ (st.sourceType = SourceType.emby → fullReset (resetOnSortChange st)) := by
  refine ⟨⟨rfl, rfl, rfl, rfl, rfl, rfl⟩, ⟨rfl, rfl, rfl, rfl, rfl, rfl⟩, ?_⟩
  intro h
  unfold resetOnSortChange
  rw [if_pos h]
  exact ⟨rfl, rfl, rfl, rfl, rfl, rfl⟩

/-- C5 witness: the concrete emby-mode session state from C2's witness
satisfies the hypothesis, and a sort change fully resets it. -/
theorem axis_change_full_reset_witness :
    staleWitnessState.sourceType = SourceType.emby
    ∧ fullReset (resetOnSortChange staleWitnessState) :=
  ⟨rfl, (axis_change_full_reset staleWitnessState).2.2 rfl⟩

/-- C6: when a fetch for the current request fails — either the endpoint
body carries a truthy `error` string, or the fetch throws — the error
message is surfaced, and the accumulated videos are cleared exactly when
the failed fetch was for page 1; for a subsequent page they are preserved
unchanged. -/
theorem fetch_failure_error_surfaced (st : SessionState)
    (resp : EmbyResponse) (msg : String)
    (herr : resp.error = some msg) (hmsg : msg ≠ "") :
    (handleCompletion st st.activeToken (FetchOutcome.embyData resp)).error = msg
    ∧ (handleCompletion st st.activeToken (FetchOutcome.embyData resp)).videos
        = (if st.page = 1 then [] else st.videos)
    ∧ (handleCompletion st st.activeToken FetchOutcome.thrown).error
        = "获取视频列表失败"
    ∧ (handleCompletion st st.activeToken FetchOutcome.thrown).videos
        = (if st.page = 1 then [] else st.videos) := by
  have ht : truthyErr (some msg) = true := by
    simp [truthyErr, hmsg]
  refine ⟨?_, ?_, ?_, ?_⟩ <;>
    simp [handleCompletion, applyFinally, herr, ht]

/-- Concrete failure body used to instantiate C6. -/
def failRespW : EmbyResponse :=
  { success := false, error := some "boom", list := [], totalPages := 0,
    currentPage := 2, total := 0 }

/-- C6 witness: at the concrete page-2 state, a failure body surfaces its
message and the (empty here, but non-initial) accumulated videos follow the
page-1 test rather than being cleared unconditionally. -/
theorem fetch_failure_error_surfaced_witness :
    failRespW.error = some "boom" ∧ ("boom" ≠ "")
    ∧ (handleCompletion staleWitnessState staleWitnessState.activeToken
        (FetchOutcome.embyData failRespW)).error = "boom" :=
  ⟨rfl, by decide,
    (fetch_failure_error_surfaced staleWitnessState failRespW "boom"
      rfl (by decide)).1⟩

/-- C7 counterexample: with every source disabled and a freshly reset
page-1 state (has-more true, as every reset leaves it), triggering a load
indeed issues no network call, but the resulting has-more flag is `true`,
not `false` as the claim states — the guard only runs `setLoading(false)`
and returns, leaving has-more untouched. -/
theorem disabled_source_hasMore_counterexample :
    sourceDisabledB ⟨false, false, false⟩
        (resetOnSourceChange staleWitnessState) = true
    ∧ (fetchVideosStart ⟨false, false, false⟩
        (resetOnSourceChange staleWitnessState)).2 = false
    ∧ (fetchVideosStart ⟨false, false, false⟩
        (resetOnSourceChange staleWitnessState)).1.hasMore = true := by
  refine ⟨rfl, rfl, rfl⟩

/-- C7 amended: when the selected source is disabled in the runtime
configuration (or emby is selected without a truthy instance key),
triggering a load performs no network call, never sets the initial-loading
flag (it ends up cleared), produces no error and leaves the accumulated
videos untouched — and it leaves `hasMore` unchanged (so still `true` after
the reset that preceded it), rather than setting it to `false`. -/
theorem disabled_source_short_circuit (cfg : RuntimeConfig)
    (st : SessionState) (hd : sourceDisabledB cfg st = true) :
    (fetchVideosStart cfg st).2 = false
    ∧ (fetchVideosStart cfg st).1.loading = false
    ∧ (fetchVideosStart cfg st).1.error = st.error
    ∧ (fetchVideosStart cfg st).1.videos = st.videos
    ∧ (fetchVideosStart cfg st).1.hasMore = st.hasMore
    ∧ (fetchVideosStart cfg st).1.loadingMore = st.loadingMore := by
  have hd' : sourceDisabledB cfg { st with activeToken := st.activeToken + 1 }
      = true := hd
  unfold fetchVideosStart
  rw [if_pos hd']
  exact ⟨rfl, rfl, rfl, rfl, rfl, rfl⟩

/-- C7 witness for the amended claim: the disabled configuration at the
freshly reset state short-circuits with no network call, a cleared loading
flag, and untouched error, videos and has-more. -/
theorem disabled_source_short_circuit_witness :
    sourceDisabledB ⟨false, false, false⟩
        (resetOnSourceChange staleWitnessState) = true
    ∧ (fetchVideosStart ⟨false, false, false⟩
        (resetOnSourceChange staleWitnessState)).2 = false :=
  ⟨rfl, (disabled_source_short_circuit ⟨false, false, false⟩
      (resetOnSourceChange staleWitnessState) rfl).1⟩

/-- C3: the GET handler is total — assuming the cache invariant that only
success bodies are ever stored (the handler itself writes only the success
body it just built), every invocation returns either a success-shaped body
(`success = true`, no `error` field) or the failure body, which carries an
error string together with an empty list, zero total pages, the requested
page as `currentPage` and zero total — structurally the same shape as the
success body. -/
theorem emby_list_uniform_response_shape (imageUrl : String → String)
    (q : ListQuery) (cached : Option EmbyResponse)
    (up : Except String UpstreamResult)
    (hinv : ∀ r, cached = some r → r.success = true ∧ r.error = none) :
    ((GET imageUrl q cached up).resp.success = true
      ∧ (GET imageUrl q cached up).resp.error = none)
    ∨ (∃ msg, (GET imageUrl q cached up).resp.success = false
        ∧ (GET imageUrl q cached up).resp.error = some msg
        ∧ (GET imageUrl q cached up).resp.list = []
        ∧ (GET imageUrl q cached up).resp.totalPages = 0
        ∧ (GET imageUrl q cached up).resp.currentPage = q.page
        ∧ (GET imageUrl q cached up).resp.total = 0) := by
  cases hq : isDefaultSortB q
  · cases up with
    | ok res =>
      left
      constructor <;> simp [GET, hq, successResponse]
    | error e =>
      right
      exact ⟨"获取 Emby 列表失败: " ++ e, by simp [GET, hq, errorResponse]⟩
  · cases hc : cached with
    | some r =>
      left
      have hr := hinv r hc
      simpa [GET, hq] using hr
    | none =>
      cases up with
      | ok res =>
        left
        constructor <;> simp [GET, hq, successResponse]
      | error e =>
        right
        exact ⟨"获取 Emby 列表失败: " ++ e, by simp [GET, hq, errorResponse]⟩

/-- Default-sort page-1 query used to instantiate C3. -/
def q0 : ListQuery :=
  { page := 1, pageSize := 20, parentId := none, embyKey := none,
    sortBy := "SortName", sortOrder := "Ascending" }

/-- C3 witness: at a concrete query with an empty cache and a failing
upstream, the handler's body has one of the two uniform shapes. -/
theorem emby_list_uniform_response_shape_witness :
    ((GET (fun s => s) q0 none (Except.error "down")).resp.success = true
      ∧ (GET (fun s => s) q0 none (Except.error "down")).resp.error = none)
    ∨ (∃ msg, (GET (fun s => s) q0 none (Except.error "down")).resp.success = false
        ∧ (GET (fun s => s) q0 none (Except.error "down")).resp.error = some msg
        ∧ (GET (fun s => s) q0 none (Except.error "down")).resp.list = []
        ∧ (GET (fun s => s) q0 none (Except.error "down")).resp.totalPages = 0
        ∧ (GET (fun s => s) q0 none (Except.error "down")).resp.currentPage = q0.page
        ∧ (GET (fun s => s) q0 none (Except.error "down")).resp.total = 0) :=
  emby_list_uniform_response_shape (fun s => s) q0 none (Except.error "down")
    (by simp)

/-- C4: after a successful completion of the current request on a paginated
source, the has-more flag equals `page < totalPages` of the response (for
any requested page at least 1 the `data.totalPages || 1` fallback is
observationally the same test); a successful xiaoya fetch always sets
has-more to false; and whenever the requested page is at most the
response's total pages, has-more is false exactly when they are equal. -/
theorem hasMore_iff_page_lt_totalPages (st : SessionState)
    (resp : EmbyResponse) (folders files : List FileEntry)
    (h1 : 1 ≤ st.page) (herr : truthyErr resp.error = false) :
    (handleCompletion st st.activeToken (FetchOutcome.embyData resp)).hasMore
      = decide (st.page < resp.totalPages)
    ∧ (handleCompletion st st.activeToken
        (FetchOutcome.xiaoyaData none folders files)).hasMore = false
    ∧ (st.page ≤ resp.totalPages →
        ((handleCompletion st st.activeToken
            (FetchOutcome.embyData resp)).hasMore = false
          ↔ st.page = resp.totalPages)) := by
  have hM : (handleCompletion st st.activeToken
      (FetchOutcome.embyData resp)).hasMore
      = decide (st.page < (if resp.totalPages = 0 then 1 else resp.totalPages)) := by
    simp [handleCompletion, applyFinally, herr]
  refine ⟨?_, ?_, ?_⟩
  · rw [hM, decide_eq_decide]
    rcases eq_or_ne resp.totalPages 0 with h0 | h0
    · rw [if_pos h0, h0]
      omega
    · rw [if_neg h0]
  · simp [handleCompletion, applyFinally, truthyErr]
  · intro hle
    rw [hM, decide_eq_false_iff_not]
    rcases eq_or_ne resp.totalPages 0 with h0 | h0
    · rw [if_pos h0]
      omega
    · rw [if_neg h0]
      omega

/-- Concrete three-page success body used to instantiate C4. -/
def pageRespW : EmbyResponse :=
  { success := true, error := none, list := [], totalPages := 3,
    currentPage := 2, total := 45 }

/-- C4 witness: at the concrete page-2 state with a three-page response,
has-more equals the `page < totalPages` test (true here). -/
theorem hasMore_iff_page_lt_totalPages_witness :
    (1 ≤ staleWitnessState.page) ∧ truthyErr pageRespW.error = false
    ∧ (handleCompletion staleWitnessState staleWitnessState.activeToken
        (FetchOutcome.embyData pageRespW)).hasMore
        = decide (staleWitnessState.page < pageRespW.totalPages) :=
  ⟨by decide, rfl,
    (hasMore_iff_page_lt_totalPages staleWitnessState pageRespW [] []
      (by decide) rfl).1⟩

/-- Ceiling characterization of the endpoint's total-page computation:
there are further pages beyond page `p` exactly when `p` pages of size `ps`
do not yet cover the backend's total record count. -/
theorem totalPagesOf_lt_iff (total ps p : Nat) (hs : 0 < ps) :
    p < totalPagesOf total ps ↔ p * ps < total := by
  unfold totalPagesOf
  rw [Nat.lt_iff_add_one_le, Nat.le_div_iff_mul_le hs, add_mul, one_mul]
  omega

/-- Runtime configuration with every source enabled. -/
def cfgAll : RuntimeConfig := ⟨true, true, true⟩

/-- Fresh emby-mode session at page 1, as left by a source reset. -/
def c8Start : SessionState :=
  { sourceType := SourceType.emby, embyKey := some "main", videos := [],
    xiaoyaFolders := [], xiaoyaFiles := [], loading := false,
    loadingMore := false, error := "", page := 1, hasMore := true,
    selectedView := "all", isFetching := false, activeToken := 0 }

/-- Success body for one page of the 45-record backend, with total pages as
the endpoint computes them for page size 20. -/
def mkPageResp (l : List Item) (p : Nat) : EmbyResponse :=
  { success := true, error := none, list := l,
    totalPages := totalPagesOf 45 20, currentPage := p, total := 45 }

/-- One round trip of the orchestrator: start a fetch and feed its own
(current-token) completion back in. -/
def runEmbyPage (cfg : RuntimeConfig) (st : SessionState)
    (resp : EmbyResponse) : SessionState :=
  let st1 := (fetchVideosStart cfg st).1
  handleCompletion st1 st1.activeToken (FetchOutcome.embyData resp)

/-- Session after fetching page 1 of the 45-record scenario. -/
def c8s1 (l1 : List Item) : SessionState :=
  runEmbyPage cfgAll c8Start (mkPageResp l1 1)

/-- Session after advancing to and fetching page 2. -/
def c8s2 (l1 l2 : List Item) : SessionState :=
  runEmbyPage cfgAll (advancePage (c8s1 l1)) (mkPageResp l2 2)

/-- Session after advancing to and fetching page 3. -/
def c8s3 (l1 l2 l3 : List Item) : SessionState :=
  runEmbyPage cfgAll (advancePage (c8s2 l1 l2)) (mkPageResp l3 3)

/-- C8: with page size 20 and a backend total of 45 the endpoint computes 3
total pages (and in general `totalPagesOf` is the ceiling: page `p` is
followed by more pages exactly when `p * pageSize < total`); fetching pages
1, 2, 3 sequentially yields has-more true, true, false, and the accumulated
list is exactly the concatenation of the three backend pages — no items are
added, dropped or deduplicated beyond what the backend returned — so when
the backend hands out at most 45 items in total the accumulated list has at
most 45 items. -/
theorem pagination_scenario_45_items (l1 l2 l3 : List Item)
    (h : l1.length + l2.length + l3.length ≤ 45) :
    totalPagesOf 45 20 = 3
    ∧ (∀ total ps p : Nat, 0 < ps →
        (p < totalPagesOf total ps ↔ p * ps < total))
    ∧ (c8s1 l1).hasMore = true
    ∧ (c8s2 l1 l2).hasMore = true
    ∧ (c8s3 l1 l2 l3).hasMore = false
    ∧ (c8s3 l1 l2 l3).videos = l1 ++ l2 ++ l3
    ∧ (c8s3 l1 l2 l3).videos.length ≤ 45 := by
  have hv : (c8s3 l1 l2 l3).videos = l1 ++ l2 ++ l3 := by
    simp [c8s3, c8s2, c8s1, runEmbyPage, fetchVideosStart, handleCompletion,
          applyFinally, advancePage, mkPageResp, cfgAll, c8Start, truthyErr,
          sourceDisabledB, falsyStr, totalPagesOf]
  refine ⟨by decide, fun t s p hs => totalPagesOf_lt_iff t s p hs,
    ?_, ?_, ?_, hv, ?_⟩
  · simp [c8s1, runEmbyPage, fetchVideosStart, handleCompletion,
          applyFinally, mkPageResp, cfgAll, c8Start, truthyErr,
          sourceDisabledB, falsyStr, totalPagesOf]
  · simp [c8s2, c8s1, runEmbyPage, fetchVideosStart, handleCompletion,
          applyFinally, advancePage, mkPageResp, cfgAll, c8Start, truthyErr,
          sourceDisabledB, falsyStr, totalPagesOf]
  · simp [c8s3, c8s2, c8s1, runEmbyPage, fetchVideosStart, handleCompletion,
          applyFinally, advancePage, mkPageResp, cfgAll, c8Start, truthyErr,
          sourceDisabledB, falsyStr, totalPagesOf]
  · rw [hv]
    simp only [List.length_append]
    omega

/-- Concrete item used to instantiate the C8 scenario. -/
def itmW : Item :=
  { id := "1", title := "t", poster := "p", year := "", rating := 0,
    mediaType := MediaType.movie }

/-- C8 witness: three singleton backend pages (3 ≤ 45 items in total)
accumulate to exactly their concatenation. -/
theorem pagination_scenario_45_items_witness :
    ([itmW].length + [itmW].length + [itmW].length ≤ 45)
    ∧ (c8s3 [itmW] [itmW] [itmW]).videos = [itmW] ++ [itmW] ++ [itmW] :=
  ⟨by decide,
    (pagination_scenario_45_items [itmW] [itmW] [itmW] (by decide)).2.2.2.2.2.1⟩

end MoonTVPlus
